import Mathlib

/-!
Verification of the two speech-service HTTP wrappers (`ml-services/stt-service/app.py`
and `ml-services/tts-service/app.py`) against their natural-language specification.

The embedding is shallow: each request handler becomes a pure Lean function from the
request data (plus explicit parameters standing for the opaque third-party model call,
the filesystem, and the random identifier suffix) to an outcome record holding the HTTP
response together with the observable side effects the spec talks about (whether the
model was invoked, whether the temporary input file was created/removed, whether an
output file may have been written, and exactly which arguments reached the model).

Third-party libraries (faster-whisper, Coqui TTS, soundfile, the web framework) are
treated as opaque black boxes, exactly as the spec declares them: their results enter
the handler functions as `Except`-valued parameters.  Machine floats are idealised as
`ℚ`; Python's `round(x, 2)` (round-half-to-even at two decimals) is modelled exactly by
`round2` below.  Wall-clock fields (`processing_time`) are not modelled.
-/

/-- Round-half-to-even to the nearest integer, as Python's builtin `round` does.
On a non-half value this is ordinary rounding to the nearest integer; on an exact
half it picks the even neighbour. -/
def rhe (x : ℚ) : ℤ :=
  if x - ⌊x⌋ = 1 / 2 then (if 2 ∣ ⌊x⌋ then ⌊x⌋ else ⌊x⌋ + 1) else round x

/-- Python's `round(x, 2)`: round-half-to-even at two decimal places. -/
def round2 (x : ℚ) : ℚ := (rhe (100 * x) : ℚ) / 100

/-- Python's `str.strip()`: drop whitespace from both ends of the string. -/
def pyStrip (s : String) : String :=
  String.mk (((s.toList.dropWhile Char.isWhitespace).reverse.dropWhile
    Char.isWhitespace).reverse)

/-- An HTTP error as raised by `HTTPException(status_code=..., detail=...)`. -/
structure HTTPError where
  status_code : Nat
  detail : String
deriving Repr, DecidableEq

/-! ## STT service (`stt-service/app.py`) -/

namespace Stt

/-- `WHISPER_MODEL_SIZE` environment default, read once at process start. -/
def MODEL_SIZE : String := "large-v3"

/-- A word-level timing entry as reported by the decoder (`word.start`, `word.end`,
`word.word`). -/
structure Word where
  start : ℚ
  stop : ℚ
  word : String
deriving Repr, DecidableEq

/-- A decoded segment: its text and its (possibly empty) word list.  The source's
`segment.words` may be `None`; an absent list behaves exactly like an empty one in
the collection loop, so both are modelled as `[]`. -/
structure Segment where
  text : String
  words : List Word
deriving Repr, DecidableEq

/-- The `info` object returned by `model.transcribe`: detected language, its
detection probability, and the audio duration. -/
structure TranscribeInfo where
  language : String
  language_probability : ℚ
  duration : ℚ
deriving Repr, DecidableEq

/-- One entry of the response's `timestamps` array. -/
structure TsEntry where
  start : ℚ
  stop : ℚ
  word : String
deriving Repr, DecidableEq

/-- The `meta` block of a successful transcription response (wall-clock
`processing_time` omitted from the embedding). -/
structure SttMeta where
  duration_seconds : ℚ
  quality_score : ℚ
  language_detected : String
  model_name : String
deriving Repr, DecidableEq

/-- A successful transcription response body. -/
structure SttResponse where
  text : String
  language : String
  confidence : ℚ
  timestamps : List TsEntry
  meta : SttMeta
  modelUsed : String
  status : String
deriving Repr, DecidableEq

/-- Observable outcome of one `POST /ml/stt/transcribe` request: the HTTP response
plus the side effects the spec constrains. -/
structure SttOutcome where
  response : Except HTTPError SttResponse
  /-- `get_model()` was reached inside the request handler. -/
  modelInvoked : Bool
  /-- the scoped temporary input file was created. -/
  tempCreated : Bool
  /-- the scoped temporary input file was removed (the `finally: os.unlink`). -/
  tempRemoved : Bool
deriving Repr

/-- `full_text`: concatenation of all segment texts, in order, verbatim. -/
def fullText (segs : List Segment) : String :=
  segs.foldl (fun acc s => acc ++ s.text) ""

/-- The timestamp-collection loop: for each segment, if its word list is non-empty,
append one entry per word with start/end rounded to two decimals and the word token
trimmed. -/
def collectTimestamps (segs : List Segment) : List TsEntry :=
  segs.foldl
    (fun acc s =>
      if s.words.isEmpty then acc
      else acc ++ s.words.map (fun w =>
        ⟨round2 w.start, round2 w.stop, pyStrip w.word⟩))
    []

/-- Build the success response from the decoder's segments and info, as the handler
does after the collection loop. -/
def buildResponse (segs : List Segment) (info : TranscribeInfo) : SttResponse :=
  { text := pyStrip (fullText segs)
    language := info.language
    confidence := round2 info.language_probability
    timestamps := collectTimestamps segs
    meta :=
      { duration_seconds := round2 info.duration
        quality_score := round2 info.language_probability
        language_detected := info.language
        model_name := "whisper_" ++ MODEL_SIZE }
    modelUsed := "whisper_" ++ MODEL_SIZE ++ ":faster-whisper"
    status := "success" }

/-- The `POST /ml/stt/transcribe` handler.  `audioLen` is `len(audio_bytes)`;
`decodeResult` stands for the opaque `m.transcribe(...)` call together with the
iteration over its lazy segments: `.ok` carries the segments and info, `.error`
carries `str(e)` of whatever exception the decode raised.  Temp-file naming
(`tempfile.NamedTemporaryFile`) is filesystem nondeterminism and is modelled only
by the `tempCreated`/`tempRemoved` flags. -/
def transcribe (audioLen : Nat)
    (decodeResult : Except String (List Segment × TranscribeInfo)) : SttOutcome :=
  if audioLen = 0 then
    { response := .error ⟨400, "Empty audio file"⟩
      modelInvoked := false, tempCreated := false, tempRemoved := false }
  else if audioLen > 30 * 1024 * 1024 then
    { response := .error ⟨400, "File too large (max 30MB)"⟩
      modelInvoked := false, tempCreated := false, tempRemoved := false }
  else
    match decodeResult with
    | .error e =>
        { response := .error ⟨500, e⟩
          modelInvoked := true, tempCreated := true, tempRemoved := true }
    | .ok (segs, info) =>
        { response := .ok (buildResponse segs info)
          modelInvoked := true, tempCreated := true, tempRemoved := true }

end Stt

/-! ## Lazy model singleton (`get_model` in both services)

Both services guard model initialization with the same unlocked check-then-set on a
module global.  Under the host framework's cooperative (single-threaded, yield-at-await)
request model, the whole body of `get_model` contains no await point, so each call runs
atomically with respect to every other request handler: a "schedule" of concurrent
health checks is just an ordering of atomic `get_model` executions. -/

namespace Singleton

/-- Process-wide state: whether the model global is set, and how many times the
heavyweight load has executed. -/
structure LoadState where
  loaded : Bool
  loads : Nat
deriving Repr, DecidableEq

/-- State at process start: global is `None`, no load has run. -/
def initState : LoadState := ⟨false, 0⟩

/-- One atomic execution of `get_model`: if the global is set, return it untouched;
otherwise perform the load (once) and set it. -/
def getModelStep (s : LoadState) : LoadState :=
  if s.loaded then s else ⟨true, s.loads + 1⟩

/-- Run an arbitrary interleaving of `n` concurrent callers' `get_model` executions,
given as the list of task ids in the order the scheduler runs them. -/
def runSchedule (n : Nat) (sched : List (Fin n)) : LoadState :=
  sched.foldl (fun s _ => getModelStep s) initState

end Singleton

/-! ## TTS service (`tts-service/app.py`) -/

namespace Tts

/-- `TTS_OUTPUT_DIR` environment default, read once at process start. -/
def OUTPUT_DIR : String := "/app/synthesized"

/-- The parsed `SynthesizeRequest` body.  `text` and `language` are mandatory
strings in the pydantic model, so once a request reaches the handler they are
plain strings (an absent field can only surface as the empty string here); the
optional fields may be JSON `null` (`none`). -/
structure SynthesizeRequest where
  text : String
  language : String
  voice_id : Option String := some "default"
  speaker_wav : Option String := none
  speed : Option ℚ := some 1
  emotion : Option String := none
deriving Repr, DecidableEq

/-- The fixed language-code mapping table (`lang_map` in the handler). -/
def lang_map : List (String × String) :=
  [("hi", "hi"), ("en", "en"), ("ta", "ta"), ("te", "te"),
   ("bn", "bn"), ("es", "es"), ("fr", "fr"), ("de", "de"),
   ("ar", "ar"), ("zh-cn", "zh-cn"), ("ja", "ja"), ("ko", "ko")]

/-- `lang_map.get(req.language, req.language)`: look the code up in the table,
falling back to the code itself when absent. -/
def langMapGet (l : String) : String := (lang_map.lookup l).getD l

/-- Python's `req.voice_id or "default"`: `None` and the empty string are both
falsy and fall back to the default literal. -/
def voiceOrDefault (v : Option String) : String :=
  match v with
  | none => "default"
  | some s => if s = "" then "default" else s

/-- Python's `req.speed or 1.0`: `None` and `0.0` are both falsy and fall back
to `1.0`. -/
def speedOrDefault (v : Option ℚ) : ℚ :=
  match v with
  | none => 1
  | some q => if q = 0 then 1 else q

/-- The audio content soundfile reads back from the generated file: the sample
array (PCM16 values; soundfile's float conversion is opaque and preserves count
and rate) and the sample rate. -/
structure WavData where
  sampleRate : Nat
  samples : List Int
deriving Repr, DecidableEq

/-- The arguments a `tts_to_file` invocation receives.  `speaker_wav = none`
means default-speaker mode; `some p` means voice-cloning mode with reference
audio `p`. -/
structure ModelCall where
  text : String
  language : String
  speaker_wav : Option String
  file_path : String
  speed : ℚ
deriving Repr, DecidableEq

/-! ### The in-memory WAV container (`sf.write(wav_buffer, ..., format="WAV")`)

soundfile is opaque; what the spec needs of the container is that it is a valid,
parseable encoding from which sample count and sample rate can be recovered.  We
model it as a little-endian header (sample rate, sample count, four bytes each)
followed by the PCM16 sample words, with a total parser that checks the payload
length against the declared count. -/

/-- Four little-endian bytes of a 32-bit word. -/
def encU32 (n : Nat) : List Nat :=
  [n % 256, n / 256 % 256, n / 65536 % 256, n / 16777216 % 256]

/-- Recompose a 32-bit word from four little-endian bytes. -/
def decU32 (a b c d : Nat) : Nat := a + 256 * b + 65536 * c + 16777216 * d

/-- Two little-endian bytes of a 16-bit two's-complement sample word. -/
def encS16 (s : Int) : List Nat :=
  [(s % 65536).toNat % 256, (s % 65536).toNat / 256]

/-- Recompose a signed sample from two little-endian bytes. -/
def decS16 (a b : Nat) : Int :=
  if a + 256 * b < 32768 then (a + 256 * b : Int) else (a + 256 * b : Int) - 65536

/-- Serialize the audio content into the container byte string. -/
def serializeWav (w : WavData) : List Nat :=
  encU32 w.sampleRate ++ encU32 w.samples.length ++ w.samples.flatMap encS16

/-- Decode the PCM16 payload two bytes at a time. -/
def decodeSamples : List Nat → List Int
  | a :: b :: rest => decS16 a b :: decodeSamples rest
  | _ => []

/-- Parse a container byte string back into audio content; `none` on anything
malformed (short header, payload length disagreeing with the declared count). -/
def parseWav (bytes : List Nat) : Option WavData :=
  match bytes with
  | r0 :: r1 :: r2 :: r3 :: n0 :: n1 :: n2 :: n3 :: rest =>
      if rest.length = 2 * decU32 n0 n1 n2 n3 then
        some ⟨decU32 r0 r1 r2 r3, decodeSamples rest⟩
      else none
  | _ => none

/-! ### Base64 (`base64.b64encode`) -/

/-- The base64 alphabet: index `n < 64` to its character. -/
def b64char (n : Nat) : Char :=
  if n < 26 then Char.ofNat (65 + n)
  else if n < 52 then Char.ofNat (97 + (n - 26))
  else if n < 62 then Char.ofNat (48 + (n - 52))
  else if n = 62 then '+' else '/'

/-- Inverse of the base64 alphabet; `none` on a character outside it. -/
def b64val (c : Char) : Option Nat :=
  let u := c.toNat
  if 65 ≤ u ∧ u ≤ 90 then some (u - 65)
  else if 97 ≤ u ∧ u ≤ 122 then some (u - 97 + 26)
  else if 48 ≤ u ∧ u ≤ 57 then some (u - 48 + 52)
  else if c = '+' then some 62
  else if c = '/' then some 63
  else none

/-- Standard base64 encoding of a byte string, with `=` padding. -/
def b64encodeBytes : List Nat → List Char
  | a :: b :: c :: rest =>
      b64char (a / 4) :: b64char (a % 4 * 16 + b / 16) ::
      b64char (b % 16 * 4 + c / 64) :: b64char (c % 64) :: b64encodeBytes rest
  | [a, b] => [b64char (a / 4), b64char (a % 4 * 16 + b / 16), b64char (b % 16 * 4), '=']
  | [a] => [b64char (a / 4), b64char (a % 4 * 16), '=', '=']
  | [] => []

/-- Standard base64 decoding; `none` on anything that is not a padded base64
string. -/
def b64decodeChars : List Char → Option (List Nat)
  | c1 :: c2 :: c3 :: c4 :: rest =>
      match b64val c1, b64val c2 with
      | some v1, some v2 =>
          if c3 = '=' then
            if c4 = '=' ∧ rest = [] ∧ v2 % 16 = 0 then some [v1 * 4 + v2 / 16] else none
          else
            match b64val c3 with
            | some v3 =>
                if c4 = '=' then
                  if rest = [] ∧ v3 % 4 = 0 then
                    some [v1 * 4 + v2 / 16, v2 % 16 * 16 + v3 / 4]
                  else none
                else
                  match b64val c4 with
                  | some v4 =>
                      (b64decodeChars rest).map
                        (fun bs =>
                          (v1 * 4 + v2 / 16) :: (v2 % 16 * 16 + v3 / 4) ::
                          (v3 % 4 * 64 + v4) :: bs)
                  | none => none
            | none => none
      | _, _ => none
  | [] => some []
  | _ => none

/-- Decode a base64 string (the `audio_base64` response field). -/
def b64decodeStr (s : String) : Option (List Nat) := b64decodeChars s.toList

/-! ### The `POST /ml/tts/predict` handler -/

/-- The `meta` block of a successful synthesis response (wall-clock
`processing_time` omitted from the embedding). -/
structure TtsMeta where
  language : String
  voice_id : String
  speed : ℚ
  model : String
  version : String
  char_count : Nat
deriving Repr, DecidableEq, Inhabited

/-- A successful synthesis response body. -/
structure TtsResponse where
  audio_path : String
  audio_url : String
  audio_base64 : String
  duration : ℚ
  status : String
  meta : TtsMeta
deriving Repr, DecidableEq, Inhabited

/-- Observable outcome of one `POST /ml/tts/predict` request: the HTTP response
plus the side effects the spec constrains. -/
structure TtsOutcome where
  response : Except HTTPError TtsResponse
  /-- `get_model()` was reached inside the request handler. -/
  modelInvoked : Bool
  /-- the arguments `tts_to_file` was invoked with (`none` when the synthesis
  step failed or was never reached; on failure the failing step is not
  modelled). -/
  call : Option ModelCall
  /-- an output file may have been written under `OUTPUT_DIR` (false only on the
  validation paths, which return before any path is derived). -/
  fileWritten : Bool
deriving Repr

/-- The `POST /ml/tts/predict` handler.  `pathExists` stands for
`os.path.exists`; `uuidHex` for `uuid.uuid4().hex[:8]`; `synthResult` for the
opaque try-block work (`get_model`, `tts_to_file`, `sf.read`): `.ok` carries the
audio content soundfile reads back from the generated file, `.error` carries
`str(e)` of whatever exception was raised. -/
def predict (req : SynthesizeRequest) (pathExists : String → Bool) (uuidHex : String)
    (synthResult : Except String WavData) : TtsOutcome :=
  if req.text = "" ∨ pyStrip req.text = "" then
    { response := .error ⟨400, "text is required"⟩
      modelInvoked := false, call := none, fileWritten := false }
  else if req.language = "" then
    { response := .error ⟨400, "language is required"⟩
      modelInvoked := false, call := none, fileWritten := false }
  else
    let lang := langMapGet req.language
    let file_id := voiceOrDefault req.voice_id ++ "_" ++ uuidHex
    let output_path := OUTPUT_DIR ++ "/" ++ file_id ++ ".wav"
    let cloning :=
      match req.speaker_wav with
      | some p => p ≠ "" && pathExists p
      | none => false
    let theCall : ModelCall :=
      { text := req.text
        language := lang
        speaker_wav := if cloning then req.speaker_wav else none
        file_path := output_path
        speed := speedOrDefault req.speed }
    match synthResult with
    | .error e =>
        { response := .error ⟨500, e⟩
          modelInvoked := true, call := none, fileWritten := true }
    | .ok wav =>
        let duration : ℚ := (wav.samples.length : ℚ) / (wav.sampleRate : ℚ)
        let audio_base64 := String.mk (b64encodeBytes (serializeWav wav))
        { response := .ok
            { audio_path := output_path
              audio_url := "/ml/tts/audio/" ++ file_id ++ ".wav"
              audio_base64 := audio_base64
              duration := round2 duration
              status := "success"
              meta :=
                { language := req.language
                  voice_id := voiceOrDefault req.voice_id
                  speed := speedOrDefault req.speed
                  model := "xtts_v2"
                  version := "v1"
                  char_count := req.text.length } }
          modelInvoked := true
          call := some theCall
          fileWritten := true }

end Tts

/-! ## Helper lemmas -/

/-- Round-half-to-even is within a half of its argument. -/
theorem abs_rhe_sub_le (x : ℚ) : |(rhe x : ℚ) - x| ≤ 1 / 2 := by
  unfold rhe
  split
  · rename_i hhalf
    have hfl : (⌊x⌋ : ℚ) - x = -(1 / 2) := by linarith
    split
    · rw [abs_le]
      constructor <;> linarith
    · push_cast
      rw [abs_le]
      constructor <;> linarith
  · rw [abs_sub_comm]
    exact abs_sub_round x

/-- Rounding to two decimals moves a value by at most `1/200`. -/
theorem abs_round2_sub_le (x : ℚ) : |round2 x - x| ≤ 1 / 200 := by
  have h := abs_rhe_sub_le (100 * x)
  have hx : round2 x - x = ((rhe (100 * x) : ℚ) - 100 * x) / 100 := by
    unfold round2
    ring
  rw [hx, abs_div]
  rw [show |(100 : ℚ)| = 100 by norm_num]
  rw [div_le_iff₀ (by norm_num)]
  linarith

namespace Tts

/-- The base64 alphabet decodes back to the index it encodes. -/
theorem b64val_b64char : ∀ n, n < 64 → b64val (b64char n) = some n := by decide

/-- No alphabet character is the padding character. -/
theorem b64char_ne_pad : ∀ n, n < 64 → b64char n ≠ '=' := by decide

/-- Base64 decoding inverts base64 encoding on byte strings. -/
theorem b64_roundtrip :
    ∀ bs : List Nat, (∀ x ∈ bs, x < 256) →
      b64decodeChars (b64encodeBytes bs) = some bs
  | [] => fun _ => rfl
  | [a] => fun h => by
      have ha : a < 256 := h a (by simp)
      have e1 := b64val_b64char (a / 4) (by omega)
      have e2 := b64val_b64char (a % 4 * 16) (by omega)
      have h0 : a % 4 * 16 % 16 = 0 := by omega
      simp only [b64encodeBytes, b64decodeChars, e1, e2, h0]
      simp
      omega
  | [a, b] => fun h => by
      have ha : a < 256 := h a (by simp)
      have hb : b < 256 := h b (by simp)
      have e1 := b64val_b64char (a / 4) (by omega)
      have e2 := b64val_b64char (a % 4 * 16 + b / 16) (by omega)
      have e3 := b64val_b64char (b % 16 * 4) (by omega)
      have ne3 := b64char_ne_pad (b % 16 * 4) (by omega)
      have h0 : b % 16 * 4 % 4 = 0 := by omega
      simp only [b64encodeBytes, b64decodeChars, e1, e2, e3, h0, if_neg ne3]
      simp
      omega
  | a :: b :: c :: rest => fun h => by
      have ha : a < 256 := h a (by simp)
      have hb : b < 256 := h b (by simp)
      have hc : c < 256 := h c (by simp)
      have ih := b64_roundtrip rest (fun x hx => h x (by simp [hx]))
      have e1 := b64val_b64char (a / 4) (by omega)
      have e2 := b64val_b64char (a % 4 * 16 + b / 16) (by omega)
      have e3 := b64val_b64char (b % 16 * 4 + c / 64) (by omega)
      have e4 := b64val_b64char (c % 64) (by omega)
      have ne3 := b64char_ne_pad (b % 16 * 4 + c / 64) (by omega)
      have ne4 := b64char_ne_pad (c % 64) (by omega)
      simp only [b64encodeBytes, b64decodeChars, e1, e2, e3, e4, if_neg ne3,
        if_neg ne4, ih]
      simp
      omega

/-- Each header byte is a byte. -/
theorem encU32_lt (n : Nat) : ∀ x ∈ encU32 n, x < 256 := by
  intro x hx
  simp only [encU32, List.mem_cons, List.not_mem_nil, or_false] at hx
  rcases hx with h | h | h | h <;> subst h <;> omega

/-- Each sample byte is a byte. -/
theorem encS16_lt (s : Int) : ∀ x ∈ encS16 s, x < 256 := by
  intro x hx
  simp only [encS16, List.mem_cons, List.not_mem_nil, or_false] at hx
  rcases hx with h | h <;> subst h <;> omega

/-- Every byte of the serialized container is a byte. -/
theorem serializeWav_bytes (w : WavData) : ∀ x ∈ serializeWav w, x < 256 := by
  intro x hx
  have hx3 : x ∈ encU32 w.sampleRate ∨ x ∈ encU32 w.samples.length ∨
      x ∈ w.samples.flatMap encS16 := by
    simpa [serializeWav, List.mem_append, or_assoc] using hx
  rcases hx3 with h | h | h
  · exact encU32_lt _ x h
  · exact encU32_lt _ x h
  · obtain ⟨s, -, hs⟩ := List.mem_flatMap.mp h
    exact encS16_lt s x hs

/-- The PCM16 payload is two bytes per sample. -/
theorem flatMap_encS16_length (l : List Int) : (l.flatMap encS16).length = 2 * l.length := by
  induction l with
  | nil => rfl
  | cons s tl ih => simp [encS16, ih]; omega

/-- Decoding the PCM16 payload recovers the samples, provided every sample is a
16-bit two's-complement value. -/
theorem decodeSamples_flatMap (l : List Int)
    (h : ∀ s ∈ l, -32768 ≤ s ∧ s < 32768) :
    decodeSamples (l.flatMap encS16) = l := by
  induction l with
  | nil => rfl
  | cons s tl ih =>
      have hs := h s (by simp)
      have htl := ih (fun x hx => h x (by simp [hx]))
      simp only [List.flatMap_cons, encS16, List.cons_append, List.nil_append]
      rw [decodeSamples, htl]
      congr 1
      unfold decS16
      split <;> omega

/-- Parsing inverts serialization, provided the rate and sample count fit in the
32-bit header fields and every sample is a 16-bit value. -/
theorem parseWav_serializeWav (w : WavData)
    (hr : w.sampleRate < 4294967296)
    (hn : w.samples.length < 4294967296)
    (hs : ∀ s ∈ w.samples, -32768 ≤ s ∧ s < 32768) :
    parseWav (serializeWav w) = some w := by
  show parseWav
      (encU32 w.sampleRate ++ encU32 w.samples.length ++ w.samples.flatMap encS16) =
    some w
  simp only [encU32, List.cons_append, List.nil_append]
  rw [parseWav]
  rw [flatMap_encS16_length]
  have hcount : decU32 (w.samples.length % 256) (w.samples.length / 256 % 256)
      (w.samples.length / 65536 % 256) (w.samples.length / 16777216 % 256) =
      w.samples.length := by
    unfold decU32; omega
  have hrate : decU32 (w.sampleRate % 256) (w.sampleRate / 256 % 256)
      (w.sampleRate / 65536 % 256) (w.sampleRate / 16777216 % 256) =
      w.sampleRate := by
    unfold decU32; omega
  rw [hcount, hrate, if_pos rfl, decodeSamples_flatMap w.samples hs]

/-- Every pair of the fixed mapping table maps a code to itself. -/
theorem lang_map_self : ∀ p ∈ lang_map, p.1 = p.2 := by decide

/-- Looking a key up in a table whose pairs all map a code to itself, with the
key as fallback, is the identity. -/
theorem lookup_getD_self (m : List (String × String))
    (hm : ∀ p ∈ m, p.1 = p.2) (l : String) : (m.lookup l).getD l = l := by
  induction m with
  | nil => rfl
  | cons p tl ih =>
      rw [show p = (p.1, p.2) from rfl, List.lookup_cons]
      split
      · rename_i hbeq
        have h1 : l = p.1 := by simpa using hbeq
        have h2 : p.1 = p.2 := hm p (by simp)
        simp [Option.getD, ← h2, h1]
      · exact ih (fun q hq => hm q (by simp [hq]))

end Tts

namespace Singleton

/-- `get_model` on an already-initialized state does nothing. -/
theorem getModelStep_loaded (s : LoadState) (h : s.loaded = true) :
    getModelStep s = s := by
  simp [getModelStep, h]

/-- Once the state is initialized, any further schedule leaves it untouched. -/
theorem foldl_getModelStep_loaded {α : Type} (l : List α) (s : LoadState)
    (h : s.loaded = true) : l.foldl (fun s _ => getModelStep s) s = s := by
  induction l with
  | nil => rfl
  | cons x tl ih => rw [List.foldl_cons, getModelStep_loaded s h]; exact ih

/-- Any non-empty schedule ends with the model loaded exactly once. -/
theorem runSchedule_eq (n : Nat) (sched : List (Fin n)) (h : sched ≠ []) :
    runSchedule n sched = ⟨true, 1⟩ := by
  match sched with
  | [] => exact absurd rfl h
  | t :: rest =>
      show (t :: rest).foldl (fun s _ => getModelStep s) initState = _
      rw [List.foldl_cons]
      have h1 : getModelStep initState = ⟨true, 1⟩ := rfl
      rw [h1]
      exact foldl_getModelStep_loaded rest ⟨true, 1⟩ rfl

end Singleton

/-! ## The claims -/

/-- C1: For every synthesis request in which the text field is missing or the
language field is missing, the `POST /ml/tts/predict` endpoint returns a client
error with status 400 before any model work occurs.  The pydantic request model
declares `text` and `language` as mandatory strings, so at the handler a missing
field can only surface as the empty string, which is exactly what the handler's
falsiness checks reject. -/
theorem missing_text_or_language_yields_400_before_model_work
    (req : Tts.SynthesizeRequest) (pe : String → Bool) (hex : String)
    (sr : Except String Tts.WavData)
    (h : req.text = "" ∨ req.language = "") :
    (∃ d, (Tts.predict req pe hex sr).response = .error ⟨400, d⟩) ∧
    (Tts.predict req pe hex sr).modelInvoked = false := by
  unfold Tts.predict
  rcases h with h | h
  · rw [if_pos (Or.inl h)]
    exact ⟨⟨"text is required", rfl⟩, rfl⟩
  · by_cases ht : req.text = "" ∨ pyStrip req.text = ""
    · rw [if_pos ht]
      exact ⟨⟨"text is required", rfl⟩, rfl⟩
    · rw [if_neg ht, if_pos h]
      exact ⟨⟨"language is required", rfl⟩, rfl⟩

/-- Witness for C1 at a concrete request with an empty text field. -/
theorem missing_text_or_language_witness :
    (({ text := "", language := "en" } : Tts.SynthesizeRequest).text = "" ∨
      ({ text := "", language := "en" } : Tts.SynthesizeRequest).language = "") ∧
    ((∃ d, (Tts.predict { text := "", language := "en" } (fun _ => false)
        "abcd1234" (.error "boom")).response = .error ⟨400, d⟩) ∧
      (Tts.predict { text := "", language := "en" } (fun _ => false)
        "abcd1234" (.error "boom")).modelInvoked = false) :=
  ⟨Or.inl rfl,
    missing_text_or_language_yields_400_before_model_work
      { text := "", language := "en" } (fun _ => false) "abcd1234"
      (.error "boom") (Or.inl rfl)⟩

/-- C2: For every set of concurrent health-check calls, duplicate model loads
never occur: under the framework's cooperative scheduling, each `get_model`
body (which contains no await point) runs atomically, so any interleaving of
`n` concurrent callers performs the initialization work exactly once, and every
call after the first observes the already-initialized handle and leaves the
state untouched. -/
theorem concurrent_health_checks_load_model_at_most_once
    (n : Nat) (sched : List (Fin n)) (h : sched ≠ []) :
    (Singleton.runSchedule n sched).loads = 1 ∧
    (Singleton.runSchedule n sched).loaded = true ∧
    Singleton.getModelStep (Singleton.runSchedule n sched) =
      Singleton.runSchedule n sched := by
  rw [Singleton.runSchedule_eq n sched h]
  exact ⟨rfl, rfl, rfl⟩

/-- Witness for C2 at three concurrent callers. -/
theorem concurrent_health_checks_witness :
    (([0, 0, 0] : List (Fin 1)) ≠ []) ∧
    ((Singleton.runSchedule 1 [0, 0, 0]).loads = 1 ∧
      (Singleton.runSchedule 1 [0, 0, 0]).loaded = true ∧
      Singleton.getModelStep (Singleton.runSchedule 1 [0, 0, 0]) =
        Singleton.runSchedule 1 [0, 0, 0]) :=
  ⟨by decide,
    concurrent_health_checks_load_model_at_most_once 1 [0, 0, 0] (by decide)⟩

/-- C3: For every transcription request that reaches the decoding step (that
is, one that passes the emptiness and size checks), the scoped temporary input
file is removed on every exit path, and when decoding raises any failure the
response is a 500 server error whose detail is the underlying exception
message. -/
theorem temp_file_removed_and_decode_failure_is_500
    (aLen : Nat) (dr : Except String (List Stt.Segment × Stt.TranscribeInfo))
    (h1 : aLen ≠ 0) (h2 : ¬aLen > 30 * 1024 * 1024) :
    (Stt.transcribe aLen dr).tempRemoved = true ∧
    ∀ e, dr = .error e → (Stt.transcribe aLen dr).response = .error ⟨500, e⟩ := by
  unfold Stt.transcribe
  rw [if_neg h1, if_neg h2]
  rcases dr with e | ⟨segs, info⟩
  · exact ⟨rfl, fun e' he => by injection he with h; rw [h]⟩
  · exact ⟨rfl, fun e' he => by injection he⟩

/-- Witness for C3 at a five-byte upload whose decode raises. -/
theorem temp_file_removed_witness :
    (5 ≠ 0) ∧ (¬5 > 30 * 1024 * 1024) ∧
    ((Stt.transcribe 5 (.error "corrupt audio")).tempRemoved = true ∧
      ∀ e, (Except.error "corrupt audio" :
          Except String (List Stt.Segment × Stt.TranscribeInfo)) = .error e →
        (Stt.transcribe 5 (.error "corrupt audio")).response = .error ⟨500, e⟩) :=
  ⟨by decide, by decide,
    temp_file_removed_and_decode_failure_is_500 5 (.error "corrupt audio")
      (by decide) (by decide)⟩

/-- C4: For every successful transcription, the returned top-level confidence
value equals the model-reported language-detection probability rounded to two
decimal places, and equals the meta `quality_score` field exactly. -/
theorem confidence_is_rounded_probability_and_equals_quality_score
    (aLen : Nat) (segs : List Stt.Segment) (info : Stt.TranscribeInfo)
    (resp : Stt.SttResponse)
    (h : (Stt.transcribe aLen (.ok (segs, info))).response = .ok resp) :
    resp.confidence = round2 info.language_probability ∧
    resp.confidence = resp.meta.quality_score := by
  unfold Stt.transcribe at h
  by_cases h1 : aLen = 0
  · rw [if_pos h1] at h
    exact absurd h (by simp)
  · rw [if_neg h1] at h
    by_cases h2 : aLen > 30 * 1024 * 1024
    · rw [if_pos h2] at h
      exact absurd h (by simp)
    · rw [if_neg h2] at h
      simp only at h
      injection h with h
      subst h
      exact ⟨rfl, rfl⟩

/-- Witness for C4 at a concrete successful transcription. -/
theorem confidence_witness :
    (Stt.transcribe 5 (.ok ([], ⟨"en", 97 / 100, 10⟩))).response =
      .ok (Stt.buildResponse [] ⟨"en", 97 / 100, 10⟩) ∧
    ((Stt.buildResponse [] ⟨"en", 97 / 100, 10⟩).confidence =
        round2 (97 / 100) ∧
      (Stt.buildResponse [] ⟨"en", 97 / 100, 10⟩).confidence =
        (Stt.buildResponse [] ⟨"en", 97 / 100, 10⟩).meta.quality_score) :=
  ⟨rfl,
    confidence_is_rounded_probability_and_equals_quality_score 5 []
      ⟨"en", 97 / 100, 10⟩ (Stt.buildResponse [] ⟨"en", 97 / 100, 10⟩) rfl⟩

/-- C5: For every synthesis request whose language code is not a key of the
fixed mapping table (and which passes validation), the request still succeeds
when the model call succeeds, and the language code is passed through to the
model unchanged. -/
theorem unmapped_language_passes_through_and_succeeds
    (req : Tts.SynthesizeRequest) (pe : String → Bool) (hex : String)
    (wav : Tts.WavData)
    (hl : Tts.lang_map.lookup req.language = none)
    (ht : ¬(req.text = "" ∨ pyStrip req.text = ""))
    (hlang : ¬req.language = "") :
    (∃ r, (Tts.predict req pe hex (.ok wav)).response = .ok r) ∧
    ∃ c, (Tts.predict req pe hex (.ok wav)).call = some c ∧
      c.language = req.language := by
  unfold Tts.predict
  rw [if_neg ht, if_neg hlang]
  refine ⟨⟨_, rfl⟩, _, rfl, ?_⟩
  show Tts.langMapGet req.language = req.language
  unfold Tts.langMapGet
  rw [hl]
  rfl

/-- Witness for C5 at the unmapped language code `"xx"`. -/
theorem unmapped_language_witness :
    Tts.lang_map.lookup
        ({ text := "hello", language := "xx" } : Tts.SynthesizeRequest).language =
      none ∧
    ((∃ r, (Tts.predict { text := "hello", language := "xx" } (fun _ => false)
        "abcd1234" (.ok ⟨2, [0]⟩)).response = .ok r) ∧
      ∃ c, (Tts.predict { text := "hello", language := "xx" } (fun _ => false)
          "abcd1234" (.ok ⟨2, [0]⟩)).call = some c ∧
        c.language =
          ({ text := "hello", language := "xx" } : Tts.SynthesizeRequest).language) :=
  ⟨rfl,
    unmapped_language_passes_through_and_succeeds
      { text := "hello", language := "xx" } (fun _ => false) "abcd1234"
      ⟨2, [0]⟩ rfl (by decide) (by decide)⟩

/-- C6: For every synthesis request whose text is the empty string or consists
only of whitespace (equivalently, trims to the empty string), a 400 client
error is returned, no model invocation occurs, and no output file is
written. -/
theorem whitespace_text_yields_400_no_model_no_file
    (req : Tts.SynthesizeRequest) (pe : String → Bool) (hex : String)
    (sr : Except String Tts.WavData)
    (h : pyStrip req.text = "") :
    (Tts.predict req pe hex sr).response = .error ⟨400, "text is required"⟩ ∧
    (Tts.predict req pe hex sr).modelInvoked = false ∧
    (Tts.predict req pe hex sr).fileWritten = false := by
  unfold Tts.predict
  rw [if_pos (Or.inr h)]
  exact ⟨rfl, rfl, rfl⟩

/-- Witness for C6 at a whitespace-only text. -/
theorem whitespace_text_witness :
    pyStrip ({ text := "   ", language := "en" } : Tts.SynthesizeRequest).text = "" ∧
    ((Tts.predict { text := "   ", language := "en" } (fun _ => false)
        "abcd1234" (.ok ⟨2, [0]⟩)).response = .error ⟨400, "text is required"⟩ ∧
      (Tts.predict { text := "   ", language := "en" } (fun _ => false)
        "abcd1234" (.ok ⟨2, [0]⟩)).modelInvoked = false ∧
      (Tts.predict { text := "   ", language := "en" } (fun _ => false)
        "abcd1234" (.ok ⟨2, [0]⟩)).fileWritten = false) :=
  ⟨by decide,
    whitespace_text_yields_400_no_model_no_file
      { text := "   ", language := "en" } (fun _ => false) "abcd1234"
      (.ok ⟨2, [0]⟩) (by decide)⟩

/-- C7: For every synthesis request supplying a `speaker_wav` path that does not
exist on disk (and which passes validation), the service invokes default-speaker
synthesis — the model call carries no reference-voice path — and the request
does not fail on account of the missing path: it succeeds whenever the model
call succeeds. -/
theorem missing_speaker_wav_falls_back_to_default_speaker
    (req : Tts.SynthesizeRequest) (pe : String → Bool) (hex : String)
    (wav : Tts.WavData) (p : String)
    (hp : req.speaker_wav = some p) (hpe : pe p = false)
    (ht : ¬(req.text = "" ∨ pyStrip req.text = ""))
    (hlang : ¬req.language = "") :
    (∃ r, (Tts.predict req pe hex (.ok wav)).response = .ok r) ∧
    ∃ c, (Tts.predict req pe hex (.ok wav)).call = some c ∧
      c.speaker_wav = none := by
  unfold Tts.predict
  rw [if_neg ht, if_neg hlang]
  refine ⟨⟨_, rfl⟩, _, rfl, ?_⟩
  simp [hp, hpe]

/-- Witness for C7 at a concrete non-existent reference path. -/
theorem missing_speaker_wav_witness :
    ({ text := "hello", language := "en", speaker_wav := some "/missing.wav" } :
        Tts.SynthesizeRequest).speaker_wav = some "/missing.wav" ∧
    (fun (_ : String) => false) "/missing.wav" = false ∧
    ((∃ r, (Tts.predict
        { text := "hello", language := "en", speaker_wav := some "/missing.wav" }
        (fun _ => false) "abcd1234" (.ok ⟨2, [0]⟩)).response = .ok r) ∧
      ∃ c, (Tts.predict
          { text := "hello", language := "en", speaker_wav := some "/missing.wav" }
          (fun _ => false) "abcd1234" (.ok ⟨2, [0]⟩)).call = some c ∧
        c.speaker_wav = none) :=
  ⟨rfl, rfl,
    missing_speaker_wav_falls_back_to_default_speaker
      { text := "hello", language := "en", speaker_wav := some "/missing.wav" }
      (fun _ => false) "abcd1234" ⟨2, [0]⟩ "/missing.wav" rfl rfl
      (by decide) (by decide)⟩

/-- C8: For every transcription upload of exactly zero bytes, the endpoint
returns a 400 client error and the model is never invoked; for every upload
exceeding 30 MiB, the endpoint likewise returns a 400 client error before any
model work. -/
theorem empty_or_oversized_upload_yields_400_without_model
    (dr : Except String (List Stt.Segment × Stt.TranscribeInfo)) :
    ((Stt.transcribe 0 dr).response = .error ⟨400, "Empty audio file"⟩ ∧
      (Stt.transcribe 0 dr).modelInvoked = false) ∧
    ∀ n, n > 30 * 1024 * 1024 →
      (Stt.transcribe n dr).response = .error ⟨400, "File too large (max 30MB)"⟩ ∧
      (Stt.transcribe n dr).modelInvoked = false := by
  constructor
  · exact ⟨rfl, rfl⟩
  · intro n hn
    unfold Stt.transcribe
    rw [if_neg (by omega : ¬n = 0), if_pos hn]
    exact ⟨rfl, rfl⟩

/-- Witness for C8 at a zero-byte and a `30 MiB + 1`-byte upload. -/
theorem empty_or_oversized_upload_witness :
    ((Stt.transcribe 0 (.ok ([], ⟨"en", 1, 1⟩))).response =
        .error ⟨400, "Empty audio file"⟩ ∧
      (Stt.transcribe 0 (.ok ([], ⟨"en", 1, 1⟩))).modelInvoked = false) ∧
    (31457281 > 30 * 1024 * 1024) ∧
    ((Stt.transcribe 31457281 (.ok ([], ⟨"en", 1, 1⟩))).response =
        .error ⟨400, "File too large (max 30MB)"⟩ ∧
      (Stt.transcribe 31457281 (.ok ([], ⟨"en", 1, 1⟩))).modelInvoked = false) :=
  ⟨(empty_or_oversized_upload_yields_400_without_model (.ok ([], ⟨"en", 1, 1⟩))).1,
    by decide,
    (empty_or_oversized_upload_yields_400_without_model
      (.ok ([], ⟨"en", 1, 1⟩))).2 31457281 (by decide)⟩

/-- C9: For every successful synthesis response, decoding the `audio_base64`
field yields a valid audio container that parses back to exactly the audio
content read from the generated file, and whose duration — sample count divided
by sample rate — matches the response's `duration` field (the two-decimal
rounding of that same quotient) within rounding tolerance (`1/200`).  The rate
and sample count must fit the container's 32-bit header fields and the samples
must be 16-bit values, as they are for any audio soundfile writes. -/
theorem audio_base64_roundtrip_duration
    (req : Tts.SynthesizeRequest) (pe : String → Bool) (hex : String)
    (wav : Tts.WavData) (resp : Tts.TtsResponse)
    (hr : wav.sampleRate < 4294967296)
    (hn : wav.samples.length < 4294967296)
    (hs : ∀ s ∈ wav.samples, -32768 ≤ s ∧ s < 32768)
    (h : (Tts.predict req pe hex (.ok wav)).response = .ok resp) :
    (Tts.b64decodeStr resp.audio_base64).bind Tts.parseWav = some wav ∧
    resp.duration = round2 ((wav.samples.length : ℚ) / (wav.sampleRate : ℚ)) ∧
    |resp.duration - (wav.samples.length : ℚ) / (wav.sampleRate : ℚ)| ≤ 1 / 200 := by
  unfold Tts.predict at h
  by_cases h1 : req.text = "" ∨ pyStrip req.text = ""
  · rw [if_pos h1] at h
    exact absurd h (by simp)
  · rw [if_neg h1] at h
    by_cases h2 : req.language = ""
    · rw [if_pos h2] at h
      exact absurd h (by simp)
    · rw [if_neg h2] at h
      simp only at h
      injection h with h
      subst h
      refine ⟨?_, rfl, ?_⟩
      · show (Tts.b64decodeStr
            (String.mk (Tts.b64encodeBytes (Tts.serializeWav wav)))).bind
            Tts.parseWav = some wav
        unfold Tts.b64decodeStr
        have hlist : (String.mk (Tts.b64encodeBytes (Tts.serializeWav wav))).toList =
            Tts.b64encodeBytes (Tts.serializeWav wav) := rfl
        rw [hlist, Tts.b64_roundtrip (Tts.serializeWav wav) (Tts.serializeWav_bytes wav)]
        rw [Option.some_bind]
        exact Tts.parseWav_serializeWav wav hr hn hs
      · exact abs_round2_sub_le _

/-- Concrete outcome for the C9 witness: a successful synthesis of three
samples at rate two. -/
def w9outcome : Tts.TtsOutcome :=
  Tts.predict { text := "hi", language := "en" } (fun _ => false) "cafebabe"
    (.ok ⟨2, [0, 1, -1]⟩)

/-- The response inside `w9outcome`. -/
def w9resp : Tts.TtsResponse :=
  match w9outcome.response with
  | .ok r => r
  | .error _ => default

/-- Witness for C9 at the concrete synthesis `w9outcome`. -/
theorem audio_base64_roundtrip_witness :
    w9outcome.response = .ok w9resp ∧
    ((Tts.b64decodeStr w9resp.audio_base64).bind Tts.parseWav =
        some ⟨2, [0, 1, -1]⟩ ∧
      w9resp.duration =
        round2 ((((⟨2, [0, 1, -1]⟩ : Tts.WavData).samples.length : ℚ)) /
          (((⟨2, [0, 1, -1]⟩ : Tts.WavData).sampleRate : ℚ))) ∧
      |w9resp.duration - (((⟨2, [0, 1, -1]⟩ : Tts.WavData).samples.length : ℚ)) /
          (((⟨2, [0, 1, -1]⟩ : Tts.WavData).sampleRate : ℚ))| ≤ 1 / 200) :=
  ⟨rfl,
    audio_base64_roundtrip_duration { text := "hi", language := "en" }
      (fun _ => false) "cafebabe" ⟨2, [0, 1, -1]⟩ w9resp
      (by decide) (by decide) (by decide) rfl⟩

/-- C10: The language-code mapping is the identity function: every entry of the
fixed table maps a code to itself, and codes outside the table default to
themselves, so for every input code the mapped code handed to the model equals
the requested code and the mapping step never changes any request's
behavior. -/
theorem language_mapping_is_identity (l : String) : Tts.langMapGet l = l :=
  Tts.lookup_getD_self Tts.lang_map Tts.lang_map_self l
